import Mathlib

/-!
Verification of the QardioArm blood-pressure measurement engine
(qcardio/commands/arm.py), shallowly embedded in Lean 4.

Byte sequences are modelled as lists of natural numbers (each byte in
[0, 256)); Python slicing data[a:b] becomes (data.drop a).take b-a, and
an IndexError on a missing byte becomes an Option/Except failure.
SFLOAT values are modelled as exact rationals.
-/

namespace QCardio

/-- IEEE-11073 SFLOAT decoder, embedding parse_sfloat.
Python indexes raw[0] and raw[1] (IndexError -> none on short input),
forms the little-endian 16-bit word, sign-extends the 12-bit mantissa
and the 4-bit exponent, and returns mantissa * 10 ** exponent. -/
def parse_sfloat (raw : List ℕ) : Option ℚ :=
  match raw.get? 0, raw.get? 1 with
  | some r0, some r1 =>
    let val : ℕ := r0 ||| (r1 <<< 8)
    let mantissa0 : ℤ := (val &&& 0x0FFF : ℕ)
    let mantissa : ℤ := if 0x0800 ≤ mantissa0 then mantissa0 - 0x1000 else mantissa0
    let exponent0 : ℤ := ((val >>> 12) &&& 0x000F : ℕ)
    let exponent : ℤ := if 0x0008 ≤ exponent0 then exponent0 - 0x0010 else exponent0
    some ((mantissa : ℚ) * 10 ^ exponent)
  | _, _ => none

/-- Little-endian int.from_bytes: an empty byte string yields 0, and a
byte string shorter than expected still decodes (Python does not fail). -/
def int_from_bytes_le : List ℕ → ℕ
  | [] => 0
  | b :: rest => b + 256 * int_from_bytes_le rest

/-- The dictionary produced by parse_bp_notification. -/
structure BpFrame where
  flags : ℕ
  unit : String
  systolic : ℚ
  diastolic : ℚ
  map_val : ℚ
  pulse : Option ℚ
  status : Option ℕ
deriving DecidableEq

/-- Embedding of parse_bp_notification: flags at offset 0, unit from flags
bit 0, three mandatory SFLOATs at offsets 1/3/5, an optional pulse SFLOAT
(flags bit 2) at offset 7, and an optional status (flags bit 4) read with
int.from_bytes from the next two-byte slice, which never fails even when
the slice is short. Failures (IndexError inside parse_sfloat or on
data[0]) become none. -/
def parse_bp_notification (data : List ℕ) : Option BpFrame :=
  match data.get? 0 with
  | none => none
  | some flags =>
    match parse_sfloat ((data.drop 1).take 2) with
    | none => none
    | some systolic =>
      match parse_sfloat ((data.drop 3).take 2) with
      | none => none
      | some diastolic =>
        match parse_sfloat ((data.drop 5).take 2) with
        | none => none
        | some map_val =>
          let unit := if flags &&& 0x01 ≠ 0 then "kPa" else "mmHg"
          if flags &&& 0x04 ≠ 0 then
            match parse_sfloat ((data.drop 7).take 2) with
            | none => none
            | some pulse =>
              let status := if flags &&& 0x10 ≠ 0 then
                some (int_from_bytes_le ((data.drop 9).take 2)) else none
              some ⟨flags, unit, systolic, diastolic, map_val, some pulse, status⟩
          else
            let status := if flags &&& 0x10 ≠ 0 then
              some (int_from_bytes_le ((data.drop 7).take 2)) else none
            some ⟨flags, unit, systolic, diastolic, map_val, none, status⟩

/-- The bit-to-name table of decode_conditions, in source order. -/
def conditions_mapping : List (ℕ × String) :=
  [(0, "body_movement"), (1, "cuff_too_loose"),
   (2, "irregular_pulse"), (3, "pulse_rate_out_of_range")]

/-- Embedding of decode_conditions: keep the names whose bit is set in
status, in the table's (ascending-bit) order. -/
def decode_conditions (status : ℕ) : List String :=
  (conditions_mapping.filter (fun p => status &&& (1 <<< p.1) != 0)).map Prod.snd

/-- The Phase enumeration with its wire codes. -/
inductive Phase where
  | INFLATING | MEASURING | DEFLATING | COMPLETED | ABORTED | ERROR
deriving DecidableEq

/-- Wire code of each phase (the enum values 0x01..0x06). -/
def Phase.code : Phase → ℕ
  | .INFLATING => 0x01
  | .MEASURING => 0x02
  | .DEFLATING => 0x03
  | .COMPLETED => 0x04
  | .ABORTED => 0x05
  | .ERROR => 0x06

/-- Python str() of a Phase member, as used for abort reasons. -/
def Phase.str : Phase → String
  | .INFLATING => "Phase.INFLATING"
  | .MEASURING => "Phase.MEASURING"
  | .DEFLATING => "Phase.DEFLATING"
  | .COMPLETED => "Phase.COMPLETED"
  | .ABORTED => "Phase.ABORTED"
  | .ERROR => "Phase.ERROR"

/-- Phase(n): the enum constructor lookup; none models the ValueError
raised on a code outside 0x01..0x06. -/
def phase_of_code (n : ℕ) : Option Phase :=
  if n = 0x01 then some .INFLATING
  else if n = 0x02 then some .MEASURING
  else if n = 0x03 then some .DEFLATING
  else if n = 0x04 then some .COMPLETED
  else if n = 0x05 then some .ABORTED
  else if n = 0x06 then some .ERROR
  else none

/-- Embedding of _decode_vendor: on a 2-byte payload whose first byte is
0xF2 it evaluates Phase(raw[1]), which raises ValueError (modelled as .error
carrying the bad code) when the code is not a defined phase; every other
shape returns None. -/
def decode_vendor (raw : List ℕ) : Except ℕ (Option Phase) :=
  if raw.length = 2 ∧ raw.getD 0 0 = 0xF2 then
    match phase_of_code (raw.getD 1 0) with
    | some p => .ok (some p)
    | none => .error (raw.getD 1 0)
  else .ok none

/-- Observable effect of one call of the measurement-channel handler. -/
inductive MeasEffect where
  | parseError : MeasEffect
  | abortArmMovement (status : ℕ) : MeasEffect
  | sample (m : BpFrame) (completes : Bool) : MeasEffect
deriving DecidableEq

/-- Embedding of handle_measurement, in source order: the notification is
first parsed (an IndexError here escapes as parseError); only then is the
implicit-abort signature checked; otherwise a bp progress sample is
emitted, completing the session when flags bit 4 is set. -/
def handle_measurement (data : List ℕ) : MeasEffect :=
  match parse_bp_notification data with
  | none => .parseError
  | some m =>
    if 5 ≤ data.length ∧ data.getD 0 0 = 0x04 ∧ data.getD 1 0 = 0xFF then
      .abortArmMovement (int_from_bytes_le ((data.drop 3).take 2))
    else
      .sample m (m.flags &&& 0x10 != 0)

/-- Observable effect of one call of the control-channel handler. -/
inductive ControlEffect where
  | ignore : ControlEffect
  | valueError (code : ℕ) : ControlEffect
  | progressOnly (p : Phase) : ControlEffect
  | completedEvent (p : Phase) : ControlEffect
  | raiseAborted (reason : String) (p : Phase) : ControlEffect
deriving DecidableEq

/-- Embedding of handle_control: decode a vendor phase (a ValueError from
Phase() escapes), ignore undecodable payloads, report progress, set the
event on COMPLETED, and on ABORTED or ERROR set the event and raise
QardioMeasurementAborted(str(phase)). -/
def handle_control (data : List ℕ) : ControlEffect :=
  match decode_vendor data with
  | .error c => .valueError c
  | .ok none => .ignore
  | .ok (some p) =>
    if p = .ABORTED ∨ p = .ERROR then .raiseAborted p.str p
    else if p = .COMPLETED then .completedEvent p
    else .progressOnly p

/-- How the wait inside _measure_async ended. -/
inductive WaitResult where
  | completed | bleakError | timeoutError | osError
deriving DecidableEq

/-- What _measure_async delivers to its caller. -/
inductive SessionResult where
  | ok (result : Option BpFrame)
  | connErr (msg : String)
  | abortErr (reason : String)
deriving DecidableEq

/-- Embedding of the tail of _measure_async: BleakError, TimeoutError and
OSError are all re-raised as QardioConnectionError("cannot connect");
otherwise the aborted flag turns into QardioMeasurementAborted(reason),
else the captured result dict (none models the empty dict) is returned. -/
def measure_session_outcome (w : WaitResult) (abortedFlag : Bool)
    (abortedReason : String) (result : Option BpFrame) : SessionResult :=
  match w with
  | .completed => if abortedFlag then .abortErr abortedReason else .ok result
  | .bleakError => .connErr "cannot connect"
  | .timeoutError => .connErr "cannot connect"
  | .osError => .connErr "cannot connect"

/-- The row dictionary built by Plugin.measure. -/
structure Row where
  timestamp : String
  frame : Option BpFrame
  battery : ℕ
  conditions : String
deriving DecidableEq

/-- Observable outcome of Plugin.measure: the returned row (none on
failure), how many battery reads were issued, and the failure line
printed, if any. -/
structure MeasureOut where
  row : Option Row
  batteryReads : ℕ
  printed : Option String
deriving DecidableEq

/-- Python `m.get("status") or 0`: an absent status — and a zero one —
become 0. -/
def status_or_zero : Option ℕ → ℕ
  | none => 0
  | some s => s

/-- Embedding of Plugin.measure: QardioConnectionError and
QardioMeasurementAborted are caught, a "[FAIL] ..." line is printed and
None is returned with no battery read; on success exactly one battery
read is issued and the row is assembled with the timestamp, the frame
fields, the battery byte and the "|"-joined decoded conditions. -/
def Plugin_measure (sess : SessionResult) (ts : String) (battery : ℕ) : MeasureOut :=
  match sess with
  | .connErr msg => ⟨none, 0, some ("[FAIL] " ++ msg)⟩
  | .abortErr reason => ⟨none, 0, some ("[FAIL] " ++ reason)⟩
  | .ok mo =>
      ⟨some { timestamp := ts, frame := mo, battery := battery,
              conditions := String.intercalate "|"
                (decode_conditions (status_or_zero (mo.bind BpFrame.status))) },
       1, none⟩

/-- Modelled from the spec: the reference SFLOAT encoder (the repository
has no encoder; the spec defines the round-trip against "the 2-byte
little-endian word whose bits 0-11 hold the mantissa and bits 12-15 the
exponent, both two's-complement within their width"). -/
def encode_sfloat (m e : ℤ) : List ℕ :=
  let w : ℕ := (m % 4096 + e % 16 * 4096).toNat
  [w % 256, w / 256]

/-- The number of bytes the claim says a frame's flags demand:
1 flags byte, 6 bytes of mandatory SFLOATs, 2 more if bit 2 (pulse) is
set, 2 more if bit 4 (status) is set. -/
def flags_required_len (flags : ℕ) : ℕ :=
  1 + 6 + (if flags &&& 0x04 ≠ 0 then 2 else 0) + (if flags &&& 0x10 ≠ 0 then 2 else 0)

/-! ## Arithmetic bridging lemmas for the bitwise operations -/

lemma and_4095_eq (n : ℕ) : n &&& 4095 = n % 4096 := by
  have h := Nat.and_pow_two_sub_one_eq_mod n 12
  norm_num at h
  exact h

lemma and_15_eq (n : ℕ) : n &&& 15 = n % 16 := by
  have h := Nat.and_pow_two_sub_one_eq_mod n 4
  norm_num at h
  exact h

lemma and_1_eq (n : ℕ) : n &&& 1 = n % 2 := Nat.and_one_is_mod n

lemma and_two_pow_eq (n i : ℕ) : n &&& 2 ^ i = n / 2 ^ i % 2 * 2 ^ i := by
  rw [Nat.and_two_pow, Nat.toNat_testBit]

lemma and_2_eq (n : ℕ) : n &&& 2 = n / 2 % 2 * 2 := by
  have h := and_two_pow_eq n 1
  norm_num at h
  exact h

lemma and_4_eq (n : ℕ) : n &&& 4 = n / 4 % 2 * 4 := by
  have h := and_two_pow_eq n 2
  norm_num at h
  exact h

lemma and_8_eq (n : ℕ) : n &&& 8 = n / 8 % 2 * 8 := by
  have h := and_two_pow_eq n 3
  norm_num at h
  exact h

lemma and_16_eq (n : ℕ) : n &&& 16 = n / 16 % 2 * 16 := by
  have h := and_two_pow_eq n 4
  norm_num at h
  exact h

lemma shiftRight_12_eq (n : ℕ) : n >>> 12 = n / 4096 := by
  have h := Nat.shiftRight_eq_div_pow n 12
  norm_num at h
  exact h

lemma lor_mod_div_pow (w k : ℕ) : w % 2 ^ k ||| (w / 2 ^ k) <<< k = w := by
  apply Nat.eq_of_testBit_eq
  intro i
  rw [Nat.testBit_lor, Nat.testBit_shiftLeft, Nat.testBit_mod_two_pow,
    ← Nat.shiftRight_eq_div_pow, Nat.testBit_shiftRight]
  by_cases h : i < k
  · have h2 : ¬ i ≥ k := by omega
    simp [h, h2]
  · have h2 : i ≥ k := by omega
    have h3 : k + (i - k) = i := by omega
    simp [h, h2, h3]

lemma lor_mod_div_256 (w : ℕ) : w % 256 ||| (w / 256) <<< 8 = w := by
  have h := lor_mod_div_pow w 8
  norm_num at h
  exact h

/-! ## Theorems -/

/-- C5: SFLOAT decode/encode round-trip. For every mantissa in
[-2048, 2047] and exponent in [-8, 7], decoding the 2-byte little-endian
word whose bits 0-11 hold the mantissa and bits 12-15 the exponent (both
two's-complement within their width) yields mantissa * 10 ^ exponent:
decode (encode m e) = m * 10 ^ e for the reference encoder. -/
theorem c5_sfloat_roundtrip (m e : ℤ) (hm1 : -2048 ≤ m) (hm2 : m ≤ 2047)
    (he1 : -8 ≤ e) (he2 : e ≤ 7) :
    parse_sfloat (encode_sfloat m e) = some ((m : ℚ) * 10 ^ e) := by
  simp only [parse_sfloat, encode_sfloat]
  generalize hw : (m % 4096 + e % 16 * 4096).toNat = w
  have ha0 : 0 ≤ m % 4096 := Int.emod_nonneg m (by norm_num)
  have ha1 : m % 4096 < 4096 := Int.emod_lt_of_pos m (by norm_num)
  have hb0 : 0 ≤ e % 16 := Int.emod_nonneg e (by norm_num)
  have hb1 : e % 16 < 16 := Int.emod_lt_of_pos e (by norm_num)
  simp only [List.get?]
  rw [lor_mod_div_256, and_4095_eq, shiftRight_12_eq, and_15_eq]
  have hmant : ((w % 4096 : ℕ) : ℤ) = m % 4096 := by omega
  have hexp : ((w / 4096 % 16 : ℕ) : ℤ) = e % 16 := by omega
  rw [hmant, hexp]
  have hm' : (if (0x0800 : ℤ) ≤ m % 4096 then m % 4096 - 0x1000 else m % 4096) = m := by
    split_ifs with h <;> omega
  have he' : (if (0x0008 : ℤ) ≤ e % 16 then e % 16 - 0x0010 else e % 16) = e := by
    split_ifs with h <;> omega
  rw [hm', he']

/-- C5 witness: the round-trip at mantissa -1234, exponent -1. -/
theorem c5_sfloat_roundtrip_witness :
    (-2048 : ℤ) ≤ -1234 ∧ (-1234 : ℤ) ≤ 2047 ∧ (-8 : ℤ) ≤ -1 ∧ (-1 : ℤ) ≤ 7 ∧
    parse_sfloat (encode_sfloat (-1234) (-1)) = some (((-1234 : ℤ) : ℚ) * 10 ^ (-1 : ℤ)) :=
  ⟨by norm_num, by norm_num, by norm_num, by norm_num,
   c5_sfloat_roundtrip (-1234) (-1) (by norm_num) (by norm_num) (by norm_num) (by norm_num)⟩

/-- C9: the condition decoder maps status bit 0 to "body_movement", bit 1
to "cuff_too_loose", bit 2 to "irregular_pulse", bit 3 to
"pulse_rate_out_of_range", listed in ascending bit order; decode 0 is
empty, decode 0b1011 is exactly the three named conditions in order, an
absent/None status (status_or_zero none) decodes to the empty list, and
the decoder is total (the fourth conjunct characterises it on every
input). -/
theorem c9_condition_decoder :
    decode_conditions 0 = [] ∧
    decode_conditions 0b1011 =
      ["body_movement", "cuff_too_loose", "pulse_rate_out_of_range"] ∧
    decode_conditions (status_or_zero none) = [] ∧
    (∀ s : ℕ, decode_conditions s =
      (if s &&& 1 ≠ 0 then ["body_movement"] else []) ++
      (if s &&& 2 ≠ 0 then ["cuff_too_loose"] else []) ++
      (if s &&& 4 ≠ 0 then ["irregular_pulse"] else []) ++
      (if s &&& 8 ≠ 0 then ["pulse_rate_out_of_range"] else [])) := by
  refine ⟨by decide, by decide, by decide, fun s => ?_⟩
  simp only [decode_conditions, conditions_mapping, List.filter]
  norm_num
  cases h1 : (s &&& 1 != 0) <;> cases h2 : (s &&& 2 != 0) <;>
    cases h4 : (s &&& 4 != 0) <;> cases h8 : (s &&& 8 != 0) <;>
      simp_all [bne_iff_ne]

/-- C10: Plugin.measure never propagates a session failure: a session
ending in QardioConnectionError or QardioMeasurementAborted is caught, a
"[FAIL] ..." line is printed, no battery read is issued and None is
returned, while a successful session returns a row and prints nothing —
so a None return is the only failure signal the caller observes. -/
theorem c10_measure_returns_none_on_failure (msg reason ts : String) (batt : ℕ)
    (mo : Option BpFrame) :
    (Plugin_measure (.connErr msg) ts batt).row = none ∧
    (Plugin_measure (.connErr msg) ts batt).printed = some ("[FAIL] " ++ msg) ∧
    (Plugin_measure (.connErr msg) ts batt).batteryReads = 0 ∧
    (Plugin_measure (.abortErr reason) ts batt).row = none ∧
    (Plugin_measure (.abortErr reason) ts batt).printed = some ("[FAIL] " ++ reason) ∧
    (Plugin_measure (.abortErr reason) ts batt).batteryReads = 0 ∧
    ((Plugin_measure (.ok mo) ts batt).row).isSome ∧
    (Plugin_measure (.ok mo) ts batt).printed = none :=
  ⟨rfl, rfl, rfl, rfl, rfl, rfl, rfl, rfl⟩

/-- C6 counterexample: the claim that the TimedOut outcome is
distinguishable from ConnectionFailed is false — a timeout and a
transport-level BleakError produce the identical session failure,
QardioConnectionError("cannot connect"). -/
theorem c6_timeout_equals_connection_failure :
    measure_session_outcome .timeoutError false "" none =
      measure_session_outcome .bleakError false "" none ∧
    measure_session_outcome .timeoutError false "" none = .connErr "cannot connect" :=
  ⟨rfl, rfl⟩

/-- C6 amended: if no terminating event arrives before the timeout the
session fails with QardioConnectionError("cannot connect") — the same
typed failure as a transport-level failure (BleakError/OSError), hence
not distinguishable from ConnectionFailed, though still distinct from
the Aborted failure type. -/
theorem c6_timeout_surfaces_as_connection_error (f : Bool) (r : String)
    (res : Option BpFrame) :
    measure_session_outcome .timeoutError f r res = .connErr "cannot connect" ∧
    measure_session_outcome .bleakError f r res = .connErr "cannot connect" ∧
    measure_session_outcome .osError f r res = .connErr "cannot connect" ∧
    (∀ msg reason : String, SessionResult.connErr msg ≠ .abortErr reason) :=
  ⟨rfl, rfl, rfl, fun _ _ h => SessionResult.noConfusion h⟩

/-- C7 counterexample: the claim that the Error phase is reported as a
connection/protocol error distinct from the Aborted outcome is false —
the control handler raises the same exception type
(QardioMeasurementAborted) for both phases, differing only in the
reason string. -/
theorem c7_error_phase_raises_abort_exception :
    handle_control [0xF2, 0x06] = .raiseAborted "Phase.ERROR" .ERROR ∧
    handle_control [0xF2, 0x05] = .raiseAborted "Phase.ABORTED" .ABORTED := by
  constructor <;> decide

/-- C7 amended: when a control-channel notification decodes to the
Aborted or the Error phase, the session terminates by raising
QardioMeasurementAborted carrying the phase's string form as reason in
both cases; Error is not surfaced as a distinct connection/protocol
error. -/
theorem c7_abort_and_error_raise_measurement_aborted (data : List ℕ) (p : Phase)
    (h : decode_vendor data = .ok (some p)) :
    (p = .ABORTED → handle_control data = .raiseAborted "Phase.ABORTED" .ABORTED) ∧
    (p = .ERROR → handle_control data = .raiseAborted "Phase.ERROR" .ERROR) := by
  constructor <;> rintro rfl <;> simp [handle_control, h, Phase.str]

/-- C7 witness: at the concrete payload [0xF2, 0x05]. -/
theorem c7_abort_and_error_witness :
    decode_vendor [0xF2, 0x05] = .ok (some .ABORTED) ∧
    handle_control [0xF2, 0x05] = .raiseAborted "Phase.ABORTED" .ABORTED :=
  ⟨rfl,
   (c7_abort_and_error_raise_measurement_aborted [0xF2, 0x05] .ABORTED rfl).1 rfl⟩

/-- C3 counterexample: the claim that every non-phase input yields
"no phase" without raising is false — a 2-byte payload with the 0xF2
marker but an unrecognized code such as [0xF2, 0x09] raises ValueError
(Phase(0x09)); wrong length or wrong marker do yield None. -/
theorem c3_unknown_code_raises :
    decode_vendor [0xF2, 0x09] = .error 0x09 ∧
    decode_vendor [0xF2, 0x04] = .ok (some .COMPLETED) ∧
    decode_vendor [0xF2] = .ok none ∧
    decode_vendor [0xF2, 0x04, 0x00] = .ok none :=
  ⟨rfl, rfl, rfl, rfl⟩

/-- C1 (code bug): the spec says the implicit-abort signature takes
priority over frame parsing, but handle_measurement parses first: the
5-byte signature payload [0x04, 0xFF, 0x00, 0x00, 0x00] dies with an
IndexError inside parse_bp_notification (flags 0x04 demand 9 bytes)
instead of aborting, while a 9-byte signature payload does reach the
implicit-abort branch (status decoded little-endian from bytes 3-4). -/
theorem c1_implicit_abort_blocked_by_parse :
    handle_measurement [0x04, 0xFF, 0x00, 0x00, 0x00] = .parseError ∧
    handle_measurement [0x04, 0xFF, 0x00, 0x01, 0x02, 0x00, 0x00, 0x00, 0x00] =
      .abortArmMovement 513 := by
  constructor <;> decide

/-- parse_sfloat fails exactly on inputs of fewer than 2 bytes. -/
lemma parse_sfloat_eq_none_iff (raw : List ℕ) :
    parse_sfloat raw = none ↔ raw.length < 2 := by
  match raw with
  | [] => simp [parse_sfloat]
  | [a] => simp [parse_sfloat]
  | a :: b :: t => simp [parse_sfloat]

/-- A 2-byte slice at offset k parses iff the list reaches k + 2. -/
lemma parse_sfloat_slice_none_iff (l : List ℕ) (k : ℕ) :
    parse_sfloat ((l.drop k).take 2) = none ↔ l.length < k + 2 := by
  rw [parse_sfloat_eq_none_iff]
  simp only [List.length_take, List.length_drop]
  omega

/-- A successful 2-byte slice parse at offset k bounds the list length. -/
lemma parse_sfloat_slice_some_len (l : List ℕ) (k : ℕ) (q : ℚ)
    (h : parse_sfloat ((l.drop k).take 2) = some q) : k + 2 ≤ l.length := by
  by_contra hlt
  have hn := (parse_sfloat_slice_none_iff l k).mpr (by omega)
  rw [h] at hn
  exact Option.noConfusion hn

/-- C2 amended: the frame parser fails exactly when the input is shorter
than the flags byte plus the three mandatory SFLOATs plus, if flags bit 2
is set, the pulse SFLOAT demand (that is, shorter than 7, or than 9 with
bit 2) — the status field demanded by flags bit 4 never causes a failure,
because int.from_bytes accepts a short (even empty) slice. -/
theorem c2_malformed_iff_short_of_mandatory (data : List ℕ) :
    parse_bp_notification data = none ↔
      data.length < 7 + (if data.getD 0 0 &&& 0x04 ≠ 0 then 2 else 0) := by
  match data with
  | [] => simp [parse_bp_notification]
  | flags :: rest =>
    simp only [parse_bp_notification, List.get?, List.getD, Option.getD_some,
      List.length_cons]
    cases h1 : parse_sfloat (((flags :: rest).drop 1).take 2) with
    | none =>
      rw [parse_sfloat_slice_none_iff, List.length_cons] at h1
      constructor
      · intro _
        split_ifs <;> omega
      · intro _
        trivial
    | some systolic =>
      cases h2 : parse_sfloat (((flags :: rest).drop 3).take 2) with
      | none =>
        rw [parse_sfloat_slice_none_iff, List.length_cons] at h2
        constructor
        · intro _
          split_ifs <;> omega
        · intro _
          trivial
      | some diastolic =>
        cases h3 : parse_sfloat (((flags :: rest).drop 5).take 2) with
        | none =>
          rw [parse_sfloat_slice_none_iff, List.length_cons] at h3
          constructor
          · intro _
            split_ifs <;> omega
          · intro _
            trivial
        | some map_val =>
          have l3 := parse_sfloat_slice_some_len _ _ _ h3
          rw [List.length_cons] at l3
          by_cases hp : flags &&& 0x04 ≠ 0
          · simp only [if_pos hp]
            cases h4 : parse_sfloat (((flags :: rest).drop 7).take 2) with
            | none =>
              rw [parse_sfloat_slice_none_iff, List.length_cons] at h4
              constructor
              · intro _
                omega
              · intro _
                trivial
            | some pulse =>
              have l4 := parse_sfloat_slice_some_len _ _ _ h4
              rw [List.length_cons] at l4
              constructor
              · intro hcon
                exact absurd hcon (by simp)
              · intro hcon
                exact absurd hcon (by omega)
          · simp only [if_neg hp]
            constructor
            · intro hcon
              exact absurd hcon (by simp)
            · intro hcon
              exact absurd hcon (by omega)

/-- C2 counterexample: the claim that a frame whose flags bit 4 demands a
status field the bytes cannot supply yields MalformedFrame is false —
the 7-byte frame [0x10, 0, 0, 0, 0, 0, 0] (flags demand 9 bytes) parses
successfully, its status coming from an empty slice as 0. -/
theorem c2_truncated_status_parses :
    parse_bp_notification [0x10, 0, 0, 0, 0, 0, 0] =
      some ⟨0x10, "mmHg", 0, 0, 0, none, some 0⟩ ∧
    flags_required_len 0x10 = 9 ∧
    ([0x10, 0, 0, 0, 0, 0, 0] : List ℕ).length = 7 := by
  refine ⟨?_, by decide, by decide⟩
  simp [parse_bp_notification, parse_sfloat, int_from_bytes_le, and_1_eq, and_4_eq, and_16_eq]

/-- C4: for every frame long enough for its flags, the parser reads flags
at offset 0, sets unit to kPa iff flags bit 0 is set (else mmHg), decodes
systolic/diastolic/MAP as three consecutive SFLOATs from offset 1,
includes pulse (one further SFLOAT at offset 7) iff flags bit 2 is set,
and includes status (2-byte little-endian unsigned) iff flags bit 4 is
set, at the offset the pulse field dictates; absent fields are none. -/
theorem c4_wellformed_parse_layout (data : List ℕ)
    (h : flags_required_len (data.getD 0 0) ≤ data.length) :
    ∃ f : BpFrame,
      parse_bp_notification data = some f ∧
      f.flags = data.getD 0 0 ∧
      f.unit = (if data.getD 0 0 &&& 0x01 ≠ 0 then "kPa" else "mmHg") ∧
      parse_sfloat ((data.drop 1).take 2) = some f.systolic ∧
      parse_sfloat ((data.drop 3).take 2) = some f.diastolic ∧
      parse_sfloat ((data.drop 5).take 2) = some f.map_val ∧
      (data.getD 0 0 &&& 0x04 ≠ 0 → parse_sfloat ((data.drop 7).take 2) = f.pulse) ∧
      (data.getD 0 0 &&& 0x04 = 0 → f.pulse = none) ∧
      (data.getD 0 0 &&& 0x10 ≠ 0 →
        f.status = some (int_from_bytes_le
          ((data.drop (7 + if data.getD 0 0 &&& 0x04 ≠ 0 then 2 else 0)).take 2))) ∧
      (data.getD 0 0 &&& 0x10 = 0 → f.status = none) := by
  rcases data with _ | ⟨flags, rest⟩
  · exact absurd h (by decide)
  · have hD : (flags :: rest).getD 0 0 = flags := rfl
    rw [hD] at h ⊢
    rw [flags_required_len, List.length_cons] at h
    simp only [parse_bp_notification, List.get?]
    cases h1 : parse_sfloat (((flags :: rest).drop 1).take 2) with
    | none =>
      rw [parse_sfloat_slice_none_iff, List.length_cons] at h1
      exact absurd h1 (by split_ifs at h <;> omega)
    | some systolic =>
      cases h2 : parse_sfloat (((flags :: rest).drop 3).take 2) with
      | none =>
        rw [parse_sfloat_slice_none_iff, List.length_cons] at h2
        exact absurd h2 (by split_ifs at h <;> omega)
      | some diastolic =>
        cases h3 : parse_sfloat (((flags :: rest).drop 5).take 2) with
        | none =>
          rw [parse_sfloat_slice_none_iff, List.length_cons] at h3
          exact absurd h3 (by split_ifs at h <;> omega)
        | some map_val =>
          by_cases hp : flags &&& 0x04 ≠ 0
          · cases h4 : parse_sfloat (((flags :: rest).drop 7).take 2) with
            | none =>
              rw [parse_sfloat_slice_none_iff, List.length_cons] at h4
              rw [if_pos hp] at h
              exact absurd h4 (by split_ifs at h <;> omega)
            | some pulse =>
              refine ⟨⟨flags, if flags &&& 0x01 ≠ 0 then "kPa" else "mmHg",
                       systolic, diastolic, map_val, some pulse,
                       if flags &&& 0x10 ≠ 0 then
                         some (int_from_bytes_le (((flags :: rest).drop 9).take 2))
                       else none⟩,
                     ?_, rfl, rfl, rfl, rfl, rfl, fun _ => rfl,
                     fun hc => absurd hc hp, ?_, ?_⟩
              · simp only [if_pos hp]
              · intro hs
                rw [if_pos hs, if_pos hp]
              · intro hs
                exact if_neg (fun hne => hne hs)
          · refine ⟨⟨flags, if flags &&& 0x01 ≠ 0 then "kPa" else "mmHg",
                     systolic, diastolic, map_val, none,
                     if flags &&& 0x10 ≠ 0 then
                       some (int_from_bytes_le (((flags :: rest).drop 7).take 2))
                     else none⟩,
                   ?_, rfl, rfl, rfl, rfl, rfl,
                   fun hc => absurd hc hp, fun _ => rfl, ?_, ?_⟩
            · simp only [if_neg hp]
            · intro hs
              rw [if_pos hs, if_neg hp]
            · intro hs
              exact if_neg (fun hne => hne hs)

/-- C4 witness: an 11-byte frame with flags 0x15 (kPa, pulse, status). -/
theorem c4_wellformed_parse_layout_witness :
    ∃ f : BpFrame,
      parse_bp_notification [21, 120, 0, 80, 0, 93, 0, 70, 0, 3, 0] = some f ∧
      f.flags = ([21, 120, 0, 80, 0, 93, 0, 70, 0, 3, 0] : List ℕ).getD 0 0 ∧
      f.unit = (if ([21, 120, 0, 80, 0, 93, 0, 70, 0, 3, 0] : List ℕ).getD 0 0 &&& 0x01 ≠ 0 then "kPa" else "mmHg") ∧
      parse_sfloat ((([21, 120, 0, 80, 0, 93, 0, 70, 0, 3, 0] : List ℕ).drop 1).take 2) = some f.systolic ∧
      parse_sfloat ((([21, 120, 0, 80, 0, 93, 0, 70, 0, 3, 0] : List ℕ).drop 3).take 2) = some f.diastolic ∧
      parse_sfloat ((([21, 120, 0, 80, 0, 93, 0, 70, 0, 3, 0] : List ℕ).drop 5).take 2) = some f.map_val ∧
      (([21, 120, 0, 80, 0, 93, 0, 70, 0, 3, 0] : List ℕ).getD 0 0 &&& 0x04 ≠ 0 →
        parse_sfloat ((([21, 120, 0, 80, 0, 93, 0, 70, 0, 3, 0] : List ℕ).drop 7).take 2) = f.pulse) ∧
      (([21, 120, 0, 80, 0, 93, 0, 70, 0, 3, 0] : List ℕ).getD 0 0 &&& 0x04 = 0 → f.pulse = none) ∧
      (([21, 120, 0, 80, 0, 93, 0, 70, 0, 3, 0] : List ℕ).getD 0 0 &&& 0x10 ≠ 0 →
        f.status = some (int_from_bytes_le
          ((([21, 120, 0, 80, 0, 93, 0, 70, 0, 3, 0] : List ℕ).drop
            (7 + if ([21, 120, 0, 80, 0, 93, 0, 70, 0, 3, 0] : List ℕ).getD 0 0 &&& 0x04 ≠ 0 then 2 else 0)).take 2))) ∧
      (([21, 120, 0, 80, 0, 93, 0, 70, 0, 3, 0] : List ℕ).getD 0 0 &&& 0x10 = 0 → f.status = none) :=
  c4_wellformed_parse_layout [21, 120, 0, 80, 0, 93, 0, 70, 0, 3, 0] (by decide)

/-- A successfully parsed frame whose flags bit 4 is set carries a status
value (the parser filled the status field). -/
lemma parse_status_present (data : List ℕ) (m : BpFrame)
    (h : parse_bp_notification data = some m) (hs : m.flags &&& 0x10 ≠ 0) :
    m.status.isSome := by
  simp only [parse_bp_notification] at h
  repeat' split at h
  all_goals simp_all
  all_goals subst h
  all_goals simp_all

/-- C8: when a measurement-channel notification completes the session
(a parsed frame with flags bit 4 set, no implicit abort), the session
reaches the completed state capturing that frame, and Plugin.measure
issues exactly one battery read and returns a row holding the timestamp,
the captured frame (unit, systolic, diastolic, MAP, pulse, status), the
battery percentage, and the conditions decoded from the captured frame's
status; the frame indeed carries a status value. -/
theorem c8_completed_frame_yields_success (data : List ℕ) (m : BpFrame)
    (ts : String) (batt : ℕ)
    (h : handle_measurement data = .sample m true) :
    measure_session_outcome .completed false "" (some m) = .ok (some m) ∧
    (Plugin_measure (.ok (some m)) ts batt).batteryReads = 1 ∧
    (Plugin_measure (.ok (some m)) ts batt).row =
      some ⟨ts, some m, batt,
        String.intercalate "|" (decode_conditions (status_or_zero m.status))⟩ ∧
    m.flags &&& 0x10 ≠ 0 ∧ m.status.isSome := by
  have hparse : parse_bp_notification data = some m ∧ m.flags &&& 0x10 ≠ 0 := by
    unfold handle_measurement at h
    split at h
    · exact MeasEffect.noConfusion h
    · rename_i mf heq
      split at h
      · exact MeasEffect.noConfusion h
      · injection h with hm hb
        subst hm
        exact ⟨heq, by simpa using hb⟩
  obtain ⟨hp, hs⟩ := hparse
  exact ⟨rfl, rfl, rfl, hs, parse_status_present data m hp hs⟩

/-- C8 witness: the frame [16, 1, 0, 2, 0, 3, 0] (flags 0x10) completes
the session and yields one battery read and a full row. -/
theorem c8_completed_frame_yields_success_witness :
    measure_session_outcome .completed false ""
        (some ⟨16, "mmHg", 1, 2, 3, none, some 0⟩) =
      .ok (some ⟨16, "mmHg", 1, 2, 3, none, some 0⟩) ∧
    (Plugin_measure (.ok (some ⟨16, "mmHg", 1, 2, 3, none, some 0⟩)) "t" 88).batteryReads = 1 ∧
    (Plugin_measure (.ok (some ⟨16, "mmHg", 1, 2, 3, none, some 0⟩)) "t" 88).row =
      some ⟨"t", some ⟨16, "mmHg", 1, 2, 3, none, some 0⟩, 88,
        String.intercalate "|" (decode_conditions (status_or_zero
          (BpFrame.status ⟨16, "mmHg", 1, 2, 3, none, some 0⟩)))⟩ ∧
    BpFrame.flags ⟨16, "mmHg", 1, 2, 3, none, some 0⟩ &&& 0x10 ≠ 0 ∧
    (BpFrame.status ⟨16, "mmHg", 1, 2, 3, none, some 0⟩).isSome :=
  c8_completed_frame_yields_success [16, 1, 0, 2, 0, 3, 0]
    ⟨16, "mmHg", 1, 2, 3, none, some 0⟩ "t" 88
    (by simp [handle_measurement, parse_bp_notification, parse_sfloat,
          int_from_bytes_le, and_1_eq, and_4_eq, and_16_eq, and_4095_eq, and_15_eq])

/-- A wire code maps to a phase exactly when it lies in 0x01..0x06. -/
lemma phase_of_code_isSome_iff (n : ℕ) :
    (phase_of_code n).isSome ↔ 1 ≤ n ∧ n ≤ 6 := by
  unfold phase_of_code
  split_ifs <;> simp <;> omega

/-- C3 amended: the phase decoder returns a phase iff the payload is
exactly 2 bytes, the first byte is 0xF2 and the second is one of the six
codes 0x01..0x06; a wrong length or wrong marker yields None; but a
2-byte 0xF2 payload with an unrecognized code raises ValueError instead
of yielding None. -/
theorem c3_phase_decode_total_characterization (raw : List ℕ) :
    (decode_vendor raw = .ok none ↔ ¬(raw.length = 2 ∧ raw.getD 0 0 = 0xF2)) ∧
    ((∃ p, decode_vendor raw = .ok (some p)) ↔
      raw.length = 2 ∧ raw.getD 0 0 = 0xF2 ∧ 1 ≤ raw.getD 1 0 ∧ raw.getD 1 0 ≤ 6) ∧
    ((∃ c, decode_vendor raw = .error c) ↔
      raw.length = 2 ∧ raw.getD 0 0 = 0xF2 ∧ ¬(1 ≤ raw.getD 1 0 ∧ raw.getD 1 0 ≤ 6)) := by
  unfold decode_vendor
  by_cases hc : raw.length = 2 ∧ raw.getD 0 0 = 0xF2
  · rw [if_pos hc]
    cases hn : phase_of_code (raw.getD 1 0) with
    | some p =>
      have hb : 1 ≤ raw.getD 1 0 ∧ raw.getD 1 0 ≤ 6 := by
        rw [← phase_of_code_isSome_iff, hn]
        rfl
      refine ⟨⟨fun he => ?_, fun hnc => absurd hc hnc⟩,
              ⟨fun _ => ⟨hc.1, hc.2, hb.1, hb.2⟩, fun _ => ⟨p, rfl⟩⟩,
              ⟨fun hec => ?_, fun hr => absurd hb hr.2.2⟩⟩
      · injection he with h'
        exact Option.noConfusion h'
      · obtain ⟨c, hec⟩ := hec
        exact Except.noConfusion hec
    | none =>
      have hb : ¬(1 ≤ raw.getD 1 0 ∧ raw.getD 1 0 ≤ 6) := by
        rw [← phase_of_code_isSome_iff, hn]
        simp
      refine ⟨⟨fun he => Except.noConfusion he, fun hnc => absurd hc hnc⟩,
              ⟨fun hep => ?_, fun hr => absurd ⟨hr.2.2.1, hr.2.2.2⟩ hb⟩,
              iff_of_true ⟨raw.getD 1 0, rfl⟩ ⟨hc.1, hc.2, hb⟩⟩
      · obtain ⟨p', hep⟩ := hep
        exact Except.noConfusion hep
  · rw [if_neg hc]
    refine ⟨iff_of_true rfl hc,
            ⟨fun hep => ?_, fun hr => absurd ⟨hr.1, hr.2.1⟩ hc⟩,
            ⟨fun hec => ?_, fun hr => absurd ⟨hr.1, hr.2.1⟩ hc⟩⟩
    · obtain ⟨p', hep⟩ := hep
      injection hep with h'
      exact Option.noConfusion h'
    · obtain ⟨c, hec⟩ := hec
      exact Except.noConfusion hec

end QCardio
